import Mathlib

/-
Verification of the reconciliation script of the chargebee-demo repository
(scripts/upsert-connections.ts together with scripts/shared.ts).

The script is embedded shallowly: every remote HTTP request it would issue is
recorded as an `ApiCall` in a trace, and the responses of the two remote APIs
are supplied by a `World` record, so each run of the script is a pure function
from a `World` (plus the command line) to a trace of issued calls and an
`Except`-style outcome mirroring the thrown/returned behaviour of the
TypeScript code.
-/

namespace ChargebeeDemo

/-- Run mode of the script: the single positional CLI argument (`Mode` in shared.ts). -/
inductive Mode
  | dev
  | prod
deriving DecidableEq, Repr

/-- Basic-auth credential pair inside the Source config (`Source.config.auth`). -/
structure SourceAuth where
  username : String
  password : String
deriving DecidableEq, Repr

/-- Config of a Hookdeck Source (`Source.config` in shared.ts). -/
structure SourceConfig where
  auth : SourceAuth
deriving DecidableEq, Repr

/-- The Source payload sent to the Hookdeck sources endpoint (`Source` in shared.ts). -/
structure Source where
  name : String
  type : String
  config : SourceConfig
deriving DecidableEq, Repr

/-- Config of a Destination: dev mode sets `path`, prod mode sets `url`
(`Destination.config` in shared.ts, both fields optional). -/
structure DestinationConfig where
  path : Option String
  url : Option String
deriving DecidableEq, Repr

/-- A Destination descriptor as built by `createDestination` in the script. -/
structure Destination where
  name : String
  type : String
  config : DestinationConfig
deriving DecidableEq, Repr

/-- The one filter operator applied to `body.event_type` in each Connection rule:
`$starts_with` (spelled `$startsWith` in the SDK-variant script) or `$eq`. -/
inductive FilterBody
  | startsWith (s : String)
  | eq (s : String)
deriving DecidableEq, Repr

/-- A Connection rule of `type: "filter"`; its body filters on `event_type`. -/
structure FilterRule where
  body : FilterBody
deriving DecidableEq, Repr

/-- A Connection payload as built by the script (`HookdeckConnection` in shared.ts;
the script always sets `source_id` and one filter rule). -/
structure HookdeckConnection where
  name : String
  source_id : String
  destination : Destination
  rules : List FilterRule
deriving DecidableEq, Repr

/-- String starts-with test, computed on the underlying character lists
(the semantics of `String.startsWith`). -/
def strStartsWith (s p : String) : Bool :=
  p.data.isPrefixOf s.data

/-- ASCII lowercasing of one character (the effect of `toLowerCase` on the
ASCII-only mode strings handled by the script). -/
def lowerChar (c : Char) : Char :=
  if 65 ≤ c.toNat ∧ c.toNat ≤ 90 then Char.ofNat (c.toNat + 32) else c

/-- ASCII lowercasing of a string, modelling the `toLowerCase()` call in `main`. -/
def toLowerAscii (s : String) : String :=
  ⟨s.data.map lowerChar⟩

/-- Semantics of a filter body applied to an event type string: the Hookdeck
string-starts-with and string-equals predicates. -/
def FilterBody.matches : FilterBody → String → Bool
  | .startsWith p, e => strStartsWith e p
  | .eq v, e => e == v

/-- `PROJECT_SOURCE_NAME` from shared.ts. -/
def PROJECT_SOURCE_NAME : String := "chargebee"

/-- A role-indexed triple of resource names. -/
structure RoleNames where
  customer : String
  subscription : String
  payment : String
deriving DecidableEq, Repr

/-- `PROJECT_CONNECTION_NAMES` from shared.ts. -/
def PROJECT_CONNECTION_NAMES : RoleNames :=
  ⟨"chargebee-customer", "chargebee-subscription", "chargebee-payment"⟩

/-- `PROJECT_DESTINATION_NAMES` from shared.ts. -/
def PROJECT_DESTINATION_NAMES : RoleNames :=
  ⟨"chargebee-customer-handler", "chargebee-subscription-handler",
   "chargebee-payment-handler"⟩

/-- The event list built inline in both `createChargebeeWebhookEndpoint` and
`updateChargebeeWebhookEndpoint` of the HTTP-variant script (21 entries,
sent as the `webhook_events` form field). -/
def eventTypes : List String :=
  [ "customer_created",
    "customer_updated",
    "customer_deleted",
    "customer_changed",
    "customer_moved_in",
    "customer_moved_out",
    "subscription_created",
    "subscription_started",
    "subscription_activated",
    "subscription_changed",
    "subscription_cancelled",
    "subscription_reactivated",
    "subscription_renewed",
    "subscription_scheduled_cancellation_removed",
    "subscription_changes_scheduled",
    "subscription_scheduled_changes_removed",
    "subscription_shipping_address_updated",
    "subscription_deleted",
    "subscription_paused",
    "subscription_resumed",
    "payment_succeeded" ]

/-- `ALL_WEBHOOK_EVENTS` from shared.ts, the list used as `enabled_events` by the
SDK-variant script. Its entries are members of the external chargebee SDK string
enum `WebhookEventType`; their string values are modelled from the spec, which
enumerates the 20 identifiers (the SDK itself is not part of the repository). -/
def ALL_WEBHOOK_EVENTS : List String :=
  [ "customer_created",
    "customer_changed",
    "customer_deleted",
    "customer_moved_in",
    "customer_moved_out",
    "subscription_created",
    "subscription_started",
    "subscription_activated",
    "subscription_changed",
    "subscription_cancelled",
    "subscription_reactivated",
    "subscription_renewed",
    "subscription_scheduled_cancellation_removed",
    "subscription_changes_scheduled",
    "subscription_scheduled_changes_removed",
    "subscription_shipping_address_updated",
    "subscription_deleted",
    "subscription_resumed",
    "subscription_paused",
    "payment_succeeded" ]

/-- The complete fixed list of subscribed event identifiers as enumerated by the
spec (section 4.3, 20 total), written for comparison with the lists the code uses. -/
def specSubscribedEvents : List String :=
  [ "customer_created",
    "customer_changed",
    "customer_deleted",
    "customer_moved_in",
    "customer_moved_out",
    "subscription_created",
    "subscription_started",
    "subscription_activated",
    "subscription_changed",
    "subscription_cancelled",
    "subscription_reactivated",
    "subscription_renewed",
    "subscription_scheduled_cancellation_removed",
    "subscription_changes_scheduled",
    "subscription_scheduled_changes_removed",
    "subscription_shipping_address_updated",
    "subscription_deleted",
    "subscription_resumed",
    "subscription_paused",
    "payment_succeeded" ]

/-- `getEnvVar` from shared.ts: `process.env[name]` is falsy when the variable is
unset or set to the empty string, and the function throws in both cases. The
environment is modelled as a partial map from names to values. -/
def getEnvVar (env : String → Option String) (name : String) : Except String String :=
  match env name with
  | some value =>
      if value = "" then
        .error ("Missing required environment variable: " ++ name)
      else
        .ok value
  | none => .error ("Missing required environment variable: " ++ name)

/-- The basic-auth block sent in the Chargebee endpoint form body
(`webhook_authentication` in the HTTP-variant script). -/
structure WebhookAuthentication where
  type : String
  username : String
  password : String
deriving DecidableEq, Repr

/-- The form body of a Chargebee webhook-endpoint create or update request in the
HTTP-variant script (`name` is present on create only). -/
structure ChargebeeEndpointBody where
  name : Option String
  url : String
  webhook_events : List String
  api_version : String
  webhook_authentication : WebhookAuthentication
deriving DecidableEq, Repr

/-- One remote HTTP request issued by the script, recorded in the run trace. -/
inductive ApiCall
  | sourceUpsert (body : Source)
  | connectionUpsert (body : HookdeckConnection)
  | chargebeeListEndpoints
  | chargebeeCreateEndpoint (body : ChargebeeEndpointBody)
  | chargebeeUpdateEndpoint (endpointId : String) (body : ChargebeeEndpointBody)
deriving DecidableEq, Repr

/-- A Chargebee webhook endpoint as read from the list response
(`ChargebeeWebhookEndpoint`; only the fields the script inspects). -/
structure ChargebeeWebhookEndpoint where
  id : String
  name : String
deriving DecidableEq, Repr

/-- An item of the Chargebee list response (`{ webhook_endpoint: {...} }`). -/
structure ListItem where
  webhook_endpoint : ChargebeeWebhookEndpoint
deriving DecidableEq, Repr

/-- The Chargebee webhook-endpoint list response; the `list` field may be absent. -/
structure ListResponse where
  list : Option (List ListItem)
deriving DecidableEq, Repr

/-- The JSON response of the Hookdeck source upsert; the `url` field may be
absent, which is what the script guards against. -/
structure SourceResponse where
  id : String
  url : Option String
deriving DecidableEq, Repr

/-- The environment of one run: the process environment and the responses the
two remote APIs would return for each request the script can issue.
`connResults` gives the outcome of the i-th connection upsert. -/
structure World where
  env : String → Option String
  sourceResponse : SourceResponse
  connResults : Nat → Except String Unit
  listResponse : Except String ListResponse
  createResult : Except String Unit
  updateResult : Except String Unit

/-- The outcome of running a fragment of the script: the trace of remote calls
it issued, and either its return value or the error it threw. -/
structure RunResult (α : Type) where
  calls : List ApiCall
  result : Except String α
deriving Repr

/-- A fragment that issues no call and returns a value. -/
def RunResult.pure (a : α) : RunResult α := ⟨[], .ok a⟩

/-- A fragment that issues no call and throws. -/
def RunResult.throw (e : String) : RunResult α := ⟨[], .error e⟩

/-- Sequencing of script fragments: an error stops the run, keeping the calls
already issued; otherwise the traces concatenate. -/
def RunResult.bind (r : RunResult α) (f : α → RunResult β) : RunResult β :=
  match r.result with
  | .error e => ⟨r.calls, .error e⟩
  | .ok a => ⟨r.calls ++ (f a).calls, (f a).result⟩

/-- `upsertHookdeckSource`: a PUT to the Hookdeck sources endpoint; throws when
the response `url` field is absent (or empty, since the check is on falsiness). -/
def upsertHookdeckSource (w : World) (source : Source) : RunResult SourceResponse :=
  ⟨[.sourceUpsert source],
    match w.sourceResponse.url with
    | none => .error "Source response missing URL"
    | some u =>
        if u = "" then .error "Source response missing URL"
        else .ok w.sourceResponse⟩

/-- `upsertHookdeckConnection`: a PUT to the Hookdeck connections endpoint; `i`
identifies which of the sequential connection upserts this is, so the world can
give each its own outcome. -/
def upsertHookdeckConnection (w : World) (i : Nat)
    (connection : HookdeckConnection) : RunResult Unit :=
  ⟨[.connectionUpsert connection], w.connResults i⟩

/-- The `createDestination` helper of `setupHookdeckConnections`: dev mode yields
a CLI destination with a path, prod mode an HTTP destination whose url is the
`PROD_DESTINATION_URL` environment value followed by the same path. -/
def createDestination (mode : Mode) (env : String → Option String)
    (name path : String) : Except String Destination :=
  match mode with
  | .dev => .ok ⟨name, "CLI", ⟨some path, none⟩⟩
  | .prod =>
      match getEnvVar env "PROD_DESTINATION_URL" with
      | .error e => .error e
      | .ok base => .ok ⟨name, "HTTP", ⟨none, some (base ++ path)⟩⟩

/-- The `connections` array literal of `setupHookdeckConnections`: three
Connection payloads, each with one filter rule; building it evaluates
`createDestination` for customer, subscription, then payments, and any
environment error thrown there aborts the construction. -/
def buildConnections (mode : Mode) (env : String → Option String)
    (sourceId : String) : Except String (List HookdeckConnection) :=
  match createDestination mode env PROJECT_DESTINATION_NAMES.customer
      "/webhooks/chargebee/customer" with
  | .error e => .error e
  | .ok destCustomer =>
  match createDestination mode env PROJECT_DESTINATION_NAMES.subscription
      "/webhooks/chargebee/subscription" with
  | .error e => .error e
  | .ok destSubscription =>
  match createDestination mode env PROJECT_DESTINATION_NAMES.payment
      "/webhooks/chargebee/payments" with
  | .error e => .error e
  | .ok destPayment =>
      .ok
        [ ⟨PROJECT_CONNECTION_NAMES.customer, sourceId, destCustomer,
            [⟨.startsWith "customer_"⟩]⟩,
          ⟨PROJECT_CONNECTION_NAMES.subscription, sourceId, destSubscription,
            [⟨.startsWith "subscription_"⟩]⟩,
          ⟨PROJECT_CONNECTION_NAMES.payment, sourceId, destPayment,
            [⟨.eq "payment_succeeded"⟩]⟩ ]

/-- The `for (const connection of connections)` loop: upsert each connection in
order, stopping at the first failure. -/
def upsertConnectionsLoop (w : World) (i : Nat) :
    List HookdeckConnection → RunResult Unit
  | [] => RunResult.pure ()
  | c :: rest =>
      RunResult.bind (upsertHookdeckConnection w i c) fun _ =>
        upsertConnectionsLoop w (i + 1) rest

/-- `setupHookdeckConnections`: read the Hookdeck API key and the webhook
credentials, upsert the Source, check its URL, build the three Connection
payloads, upsert them in order, and return the Source URL. -/
def setupHookdeckConnections (mode : Mode) (w : World) : RunResult String :=
  match getEnvVar w.env "HOOKDECK_API_KEY" with
  | .error e => RunResult.throw e
  | .ok _apiKey =>
  match getEnvVar w.env "CHARGEBEE_WEBHOOK_USERNAME" with
  | .error e => RunResult.throw e
  | .ok username =>
  match getEnvVar w.env "CHARGEBEE_WEBHOOK_PASSWORD" with
  | .error e => RunResult.throw e
  | .ok password =>
  RunResult.bind
    (upsertHookdeckSource w
      ⟨PROJECT_SOURCE_NAME, "CHARGEBEE_BILLING", ⟨⟨username, password⟩⟩⟩)
    fun sourceResponse =>
  match sourceResponse.url with
  | none => RunResult.throw "Source URL is undefined"
  | some hookdeckSourceUrl =>
  if hookdeckSourceUrl = "" then RunResult.throw "Source URL is undefined"
  else
    match buildConnections mode w.env sourceResponse.id with
    | .error e => RunResult.throw e
    | .ok connections =>
        RunResult.bind (upsertConnectionsLoop w 0 connections) fun _ =>
          RunResult.pure hookdeckSourceUrl

/-- The endpoint list the script ends up with after the listing call: a thrown
error is caught and degraded to the empty list, a response without a `list`
field also yields the empty list, and otherwise each item's `webhook_endpoint`
is extracted (`response.list?.map(...) || []` with the surrounding try/catch). -/
def endpointsOf (w : World) : List ChargebeeWebhookEndpoint :=
  match w.listResponse with
  | .error _ => []
  | .ok response =>
      match response.list with
      | none => []
      | some items => items.map (fun item => item.webhook_endpoint)

/-- `getChargebeeWebhookEndpoints`: a GET of the Chargebee webhook endpoints;
the call is issued, and its outcome is degraded as described at `endpointsOf`. -/
def getChargebeeWebhookEndpoints (w : World) :
    RunResult (List ChargebeeWebhookEndpoint) :=
  ⟨[.chargebeeListEndpoints], .ok (endpointsOf w)⟩

/-- `updateChargebeeWebhookEndpoint`: a POST against the endpoint id, with the
inline 21-entry event list as `webhook_events`. -/
def updateChargebeeWebhookEndpoint (w : World) (endpointId webhookUrl
    username password : String) : RunResult Unit :=
  ⟨[.chargebeeUpdateEndpoint endpointId
      ⟨none, webhookUrl, eventTypes, "v2", ⟨"basic_auth", username, password⟩⟩],
    w.updateResult⟩

/-- `createChargebeeWebhookEndpoint`: a POST creating the endpoint under the
fixed display name, with the inline 21-entry event list as `webhook_events`. -/
def createChargebeeWebhookEndpoint (w : World) (webhookUrl
    username password : String) : RunResult Unit :=
  ⟨[.chargebeeCreateEndpoint
      ⟨some "Hookdeck Webhook Endpoint", webhookUrl, eventTypes, "v2",
        ⟨"basic_auth", username, password⟩⟩],
    w.createResult⟩

/-- `setupChargebeeWebhook`: read the Chargebee credentials, list the existing
endpoints, look for one named "Hookdeck Webhook Endpoint", and update it if
found, else create it. -/
def setupChargebeeWebhook (_mode : Mode) (w : World)
    (hookdeckSourceUrl : String) : RunResult Unit :=
  match getEnvVar w.env "CHARGEBEE_API_KEY" with
  | .error e => RunResult.throw e
  | .ok _chargebeeApiKey =>
  match getEnvVar w.env "CHARGEBEE_SITE" with
  | .error e => RunResult.throw e
  | .ok _chargebeeSite =>
  match getEnvVar w.env "CHARGEBEE_WEBHOOK_USERNAME" with
  | .error e => RunResult.throw e
  | .ok webhookUsername =>
  match getEnvVar w.env "CHARGEBEE_WEBHOOK_PASSWORD" with
  | .error e => RunResult.throw e
  | .ok webhookPassword =>
  RunResult.bind (getChargebeeWebhookEndpoints w) fun existingEndpoints =>
  match existingEndpoints.find?
      (fun endpoint => endpoint.name == "Hookdeck Webhook Endpoint") with
  | some hookdeckEndpoint =>
      updateChargebeeWebhookEndpoint w hookdeckEndpoint.id hookdeckSourceUrl
        webhookUsername webhookPassword
  | none =>
      createChargebeeWebhookEndpoint w hookdeckSourceUrl
        webhookUsername webhookPassword

/-- The argument handling of `main`: no argument prints usage and exits
non-zero; otherwise the first argument is lowercased and must be dev or prod. -/
def parseMode (args : List String) : Except String Mode :=
  match args with
  | [] => .error "Mode argument required (dev or prod)"
  | arg :: _ =>
      if toLowerAscii arg = "dev" then .ok .dev
      else if toLowerAscii arg = "prod" then .ok .prod
      else .error "Invalid mode. Must be dev or prod"

/-- The try block of `main`: the Hookdeck setup, then the Chargebee setup with
the Source URL it returned. -/
def runScript (mode : Mode) (w : World) : RunResult Unit :=
  RunResult.bind (setupHookdeckConnections mode w) fun hookdeckSourceUrl =>
    setupChargebeeWebhook mode w hookdeckSourceUrl

/-- `main` of the HTTP-variant script: parse the mode argument (exiting before
any remote call when it is missing or invalid), then run the two setup phases;
an error anywhere makes the process exit non-zero. -/
def main (args : List String) (w : World) : RunResult Unit :=
  match parseMode args with
  | .error e => RunResult.throw e
  | .ok mode => runScript mode w

/-- The parameters of the SDK-variant update call
(`chargebee.webhook_endpoint.update`), whose `enabled_events` is
`ALL_WEBHOOK_EVENTS`. -/
structure SdkEndpointParams where
  name : Option String
  url : String
  api_version : String
  basic_auth_username : String
  basic_auth_password : String
  enabled_events : List String
deriving DecidableEq, Repr

/-- The parameter record of `updateChargebeeWebhookEndpoint` in the SDK-variant
script. -/
def sdkUpdateParams (webhookUrl username password : String) : SdkEndpointParams :=
  ⟨none, webhookUrl, "v2", username, password, ALL_WEBHOOK_EVENTS⟩

/-- The parameter record of `createChargebeeWebhookEndpoint` in the SDK-variant
script. -/
def sdkCreateParams (webhookUrl username password : String) : SdkEndpointParams :=
  ⟨some "Hookdeck Webhook Endpoint", webhookUrl, "v2", username, password,
    ALL_WEBHOOK_EVENTS⟩

/-- How many of the given connections have a rule matching the event type. -/
def rulesMatchCount (connections : List HookdeckConnection) (e : String) : Nat :=
  (connections.filter (fun c => c.rules.any (fun r => r.body.matches e))).length

/-- A fully populated sample environment for concrete runs. -/
def sampleEnv : String → Option String := fun name =>
  if name = "HOOKDECK_API_KEY" then some "hk_key"
  else if name = "CHARGEBEE_API_KEY" then some "cb_key"
  else if name = "CHARGEBEE_SITE" then some "acme"
  else if name = "CHARGEBEE_WEBHOOK_USERNAME" then some "hookdeck"
  else if name = "CHARGEBEE_WEBHOOK_PASSWORD" then some "secret"
  else if name = "PROD_DESTINATION_URL" then some "https://example.com"
  else none

/-- A world where every call succeeds and no endpoint exists yet. -/
def sampleWorld : World :=
  ⟨sampleEnv, ⟨"src_1", some "https://hkdk.example/abc"⟩, fun _ => .ok (),
    .ok ⟨some []⟩, .ok (), .ok ()⟩

/-- Like `sampleWorld`, but the Source upsert response has no url field. -/
def noUrlWorld : World :=
  { sampleWorld with sourceResponse := ⟨"src_1", none⟩ }

/-- Like `sampleWorld`, but the billing API key variable is absent. -/
def missingKeyWorld : World :=
  { sampleWorld with
      env := fun name =>
        if name = "CHARGEBEE_API_KEY" then none else sampleEnv name }

/-- Like `sampleWorld`, but the prod base destination url variable is absent. -/
def prodNoUrlWorld : World :=
  { sampleWorld with
      env := fun name =>
        if name = "PROD_DESTINATION_URL" then none else sampleEnv name }

/-- Like `sampleWorld`, but the endpoint-listing call fails. -/
def listFailWorld : World :=
  { sampleWorld with listResponse := .error "HTTP 500" }

/-- Like `sampleWorld`, but an endpoint with the well-known name already exists. -/
def existingEndpointWorld : World :=
  { sampleWorld with
      listResponse := .ok ⟨some [⟨⟨"we_1", "Hookdeck Webhook Endpoint"⟩⟩]⟩ }

end ChargebeeDemo

namespace ChargebeeDemo

/-- Sequencing after a failed fragment keeps its calls and its error. -/
theorem RunResult.bind_eq_of_error {α β : Type} {r : RunResult α}
    (f : α → RunResult β) (e : String) (h : r.result = .error e) :
    RunResult.bind r f = ⟨r.calls, .error e⟩ := by
  unfold RunResult.bind
  rw [h]

/-- Sequencing after a successful fragment concatenates the traces. -/
theorem RunResult.bind_eq_of_ok {α β : Type} {r : RunResult α}
    (f : α → RunResult β) (a : α) (h : r.result = .ok a) :
    RunResult.bind r f = ⟨r.calls ++ (f a).calls, (f a).result⟩ := by
  unfold RunResult.bind
  rw [h]

/-- Every call of a sequenced fragment comes from one of its two parts. -/
theorem RunResult.mem_bind_calls {α β : Type} {c : ApiCall} {r : RunResult α}
    {f : α → RunResult β} (h : c ∈ (RunResult.bind r f).calls) :
    c ∈ r.calls ∨ ∃ a, r.result = .ok a ∧ c ∈ (f a).calls := by
  cases hr : r.result with
  | error e => rw [RunResult.bind_eq_of_error f e hr] at h; exact .inl h
  | ok a =>
      rw [RunResult.bind_eq_of_ok f a hr] at h
      rcases List.mem_append.1 h with h1 | h1
      · exact .inl h1
      · exact .inr ⟨a, rfl, h1⟩

/-- The connection loop only issues connection upserts. -/
theorem upsertConnectionsLoop_calls (w : World) (i : Nat)
    (cs : List HookdeckConnection) :
    ∀ c ∈ (upsertConnectionsLoop w i cs).calls,
      ∃ cn, c = ApiCall.connectionUpsert cn := by
  induction cs generalizing i with
  | nil => intro c hc; simp [upsertConnectionsLoop, RunResult.pure] at hc
  | cons a rest ih =>
      intro c hc
      rcases RunResult.mem_bind_calls hc with h1 | ⟨u, _, h1⟩
      · simp [upsertHookdeckConnection] at h1
        exact ⟨a, h1⟩
      · exact ih (i + 1) c h1

/-- The Hookdeck setup phase only issues source and connection upserts. -/
theorem setupHookdeckConnections_calls (mode : Mode) (w : World) :
    ∀ c ∈ (setupHookdeckConnections mode w).calls,
      (∃ s, c = ApiCall.sourceUpsert s) ∨
        ∃ cn, c = ApiCall.connectionUpsert cn := by
  intro c hc
  unfold setupHookdeckConnections at hc
  split at hc
  · simp [RunResult.throw] at hc
  split at hc
  · simp [RunResult.throw] at hc
  split at hc
  · simp [RunResult.throw] at hc
  rcases RunResult.mem_bind_calls hc with h1 | ⟨sr, _, h1⟩
  · simp [upsertHookdeckSource] at h1
    exact .inl ⟨_, h1⟩
  · split at h1
    · simp [RunResult.throw] at h1
    split at h1
    · simp [RunResult.throw] at h1
    split at h1
    · simp [RunResult.throw] at h1
    rcases RunResult.mem_bind_calls h1 with h2 | ⟨_, _, h2⟩
    · exact .inr (upsertConnectionsLoop_calls _ _ _ c h2)
    · simp [RunResult.pure] at h2

/-- The Chargebee setup phase issues the list call and at most one create or
update, and every create or update carries the inline 21-entry event list. -/
theorem setupChargebeeWebhook_calls (mode : Mode) (w : World) (url : String) :
    ∀ c ∈ (setupChargebeeWebhook mode w url).calls,
      c = ApiCall.chargebeeListEndpoints ∨
        (∃ b, c = ApiCall.chargebeeCreateEndpoint b ∧
          b.webhook_events = eventTypes) ∨
        ∃ i b, c = ApiCall.chargebeeUpdateEndpoint i b ∧
          b.webhook_events = eventTypes := by
  intro c hc
  unfold setupChargebeeWebhook at hc
  split at hc
  · simp [RunResult.throw] at hc
  split at hc
  · simp [RunResult.throw] at hc
  split at hc
  · simp [RunResult.throw] at hc
  split at hc
  · simp [RunResult.throw] at hc
  rcases RunResult.mem_bind_calls hc with h1 | ⟨eps, _, h1⟩
  · simp [getChargebeeWebhookEndpoints] at h1
    exact .inl h1
  · split at h1
    · simp [updateChargebeeWebhookEndpoint] at h1
      exact .inr (.inr ⟨_, _, h1, rfl⟩)
    · simp [createChargebeeWebhookEndpoint] at h1
      exact .inr (.inl ⟨_, h1, rfl⟩)

/-- Every call of the whole run is one of the five request kinds, and every
Chargebee create or update request carries the inline 21-entry event list. -/
theorem main_calls_shape (args : List String) (w : World) :
    ∀ c ∈ (main args w).calls,
      (∃ s, c = ApiCall.sourceUpsert s) ∨
      (∃ cn, c = ApiCall.connectionUpsert cn) ∨
      c = ApiCall.chargebeeListEndpoints ∨
      (∃ b, c = ApiCall.chargebeeCreateEndpoint b ∧
        b.webhook_events = eventTypes) ∨
      ∃ i b, c = ApiCall.chargebeeUpdateEndpoint i b ∧
        b.webhook_events = eventTypes := by
  intro c hc
  unfold main at hc
  split at hc
  · simp [RunResult.throw] at hc
  next mode _ =>
    unfold runScript at hc
    rcases RunResult.mem_bind_calls hc with h1 | ⟨url, _, h1⟩
    · rcases setupHookdeckConnections_calls mode w c h1 with h2 | h2
      · exact .inl h2
      · exact .inr (.inl h2)
    · rcases setupChargebeeWebhook_calls mode w url c h1 with h2 | h2 | h2
      · exact .inr (.inr (.inl h2))
      · exact .inr (.inr (.inr (.inl h2)))
      · exact .inr (.inr (.inr (.inr h2)))

/-- A successful connection guard loop over three connections issues exactly the
three upserts in order. -/
theorem upsertConnectionsLoop3_ok (w : World) (i : Nat)
    (a b c : HookdeckConnection)
    (h : (upsertConnectionsLoop w i [a, b, c]).result = .ok ()) :
    (upsertConnectionsLoop w i [a, b, c]).calls =
      [ApiCall.connectionUpsert a, ApiCall.connectionUpsert b,
        ApiCall.connectionUpsert c] := by
  simp only [upsertConnectionsLoop, upsertHookdeckConnection, RunResult.bind,
    RunResult.pure] at h ⊢
  cases h1 : w.connResults i with
  | error e => simp [h1] at h
  | ok u1 =>
      simp only [h1] at h ⊢
      cases h2 : w.connResults (i + 1) with
      | error e => simp [h2] at h
      | ok u2 =>
          simp only [h2] at h ⊢
          cases h3 : w.connResults (i + 1 + 1) with
          | error e => simp [h3] at h
          | ok u3 => simp [h3]

/-- Whatever the mode and environment, a successfully built connections array is
the three role connections in order, with their fixed names and filter rules. -/
theorem buildConnections_roles (mode : Mode) (env : String → Option String)
    (sid : String) (cs : List HookdeckConnection)
    (h : buildConnections mode env sid = .ok cs) :
    ∃ d1 d2 d3, cs =
      [ ⟨"chargebee-customer", sid, d1, [⟨.startsWith "customer_"⟩]⟩,
        ⟨"chargebee-subscription", sid, d2, [⟨.startsWith "subscription_"⟩]⟩,
        ⟨"chargebee-payment", sid, d3, [⟨.eq "payment_succeeded"⟩]⟩ ] := by
  unfold buildConnections at h
  split at h
  · cases h
  split at h
  · cases h
  split at h
  · cases h
  cases h
  exact ⟨_, _, _, rfl⟩

/-- A successful Hookdeck setup phase issues exactly the Source upsert followed
by the three Connection upserts for customer, subscription, payment in order. -/
theorem setupHookdeckConnections_ok_calls (mode : Mode) (w : World)
    (url : String)
    (h : (setupHookdeckConnections mode w).result = .ok url) :
    ∃ src c1 c2 c3,
      (setupHookdeckConnections mode w).calls =
        [ApiCall.sourceUpsert src, ApiCall.connectionUpsert c1,
          ApiCall.connectionUpsert c2, ApiCall.connectionUpsert c3] ∧
      c1.name = "chargebee-customer" ∧
      c2.name = "chargebee-subscription" ∧
      c3.name = "chargebee-payment" := by
  unfold setupHookdeckConnections at h ⊢
  cases h1 : getEnvVar w.env "HOOKDECK_API_KEY" with
  | error e => simp [h1, RunResult.throw] at h
  | ok apiKey =>
  simp only [h1] at h ⊢
  cases h2 : getEnvVar w.env "CHARGEBEE_WEBHOOK_USERNAME" with
  | error e => simp [h2, RunResult.throw] at h
  | ok username =>
  simp only [h2] at h ⊢
  cases h3 : getEnvVar w.env "CHARGEBEE_WEBHOOK_PASSWORD" with
  | error e => simp [h3, RunResult.throw] at h
  | ok password =>
  simp only [h3] at h ⊢
  cases h4 : w.sourceResponse.url with
  | none =>
      rw [RunResult.bind_eq_of_error _ "Source response missing URL"
        (by simp [upsertHookdeckSource, h4])] at h
      simp at h
  | some u =>
  by_cases h5 : u = ""
  · rw [RunResult.bind_eq_of_error _ "Source response missing URL"
      (by simp [upsertHookdeckSource, h4, h5])] at h
    simp at h
  · rw [RunResult.bind_eq_of_ok _ w.sourceResponse
      (by simp [upsertHookdeckSource, h4, h5] :
        (upsertHookdeckSource w
          ⟨PROJECT_SOURCE_NAME, "CHARGEBEE_BILLING", ⟨⟨username, password⟩⟩⟩).result
          = .ok w.sourceResponse)] at h ⊢
    simp only [h4] at h ⊢
    rw [if_neg h5] at h ⊢
    cases h6 : buildConnections mode w.env w.sourceResponse.id with
    | error e => simp [h6, RunResult.throw] at h
    | ok cs =>
    simp only [h6] at h ⊢
    obtain ⟨d1, d2, d3, rfl⟩ := buildConnections_roles mode w.env _ cs h6
    cases h7 : (upsertConnectionsLoop w 0
        [ ⟨"chargebee-customer", w.sourceResponse.id, d1,
            [⟨.startsWith "customer_"⟩]⟩,
          ⟨"chargebee-subscription", w.sourceResponse.id, d2,
            [⟨.startsWith "subscription_"⟩]⟩,
          ⟨"chargebee-payment", w.sourceResponse.id, d3,
            [⟨.eq "payment_succeeded"⟩]⟩ ]).result with
    | error e => rw [RunResult.bind_eq_of_error _ e h7] at h; simp at h
    | ok uu =>
        rw [RunResult.bind_eq_of_ok _ uu h7]
        refine ⟨⟨PROJECT_SOURCE_NAME, "CHARGEBEE_BILLING", ⟨⟨username, password⟩⟩⟩,
          ⟨"chargebee-customer", w.sourceResponse.id, d1,
            [⟨.startsWith "customer_"⟩]⟩,
          ⟨"chargebee-subscription", w.sourceResponse.id, d2,
            [⟨.startsWith "subscription_"⟩]⟩,
          ⟨"chargebee-payment", w.sourceResponse.id, d3,
            [⟨.eq "payment_succeeded"⟩]⟩, ?_, rfl, rfl, rfl⟩
        rw [upsertConnectionsLoop3_ok w 0 _ _ _ h7]
        simp [upsertHookdeckSource, RunResult.pure]

/-- A successful Chargebee setup phase issues exactly the list call followed by
one create or one update. -/
theorem setupChargebeeWebhook_ok_calls (mode : Mode) (w : World) (url : String)
    (h : (setupChargebeeWebhook mode w url).result = .ok ()) :
    ∃ last,
      (setupChargebeeWebhook mode w url).calls =
        [ApiCall.chargebeeListEndpoints, last] ∧
      ((∃ b, last = ApiCall.chargebeeCreateEndpoint b) ∨
        ∃ i b, last = ApiCall.chargebeeUpdateEndpoint i b) := by
  unfold setupChargebeeWebhook at h ⊢
  cases h1 : getEnvVar w.env "CHARGEBEE_API_KEY" with
  | error e => simp [h1, RunResult.throw] at h
  | ok k =>
  simp only [h1] at h ⊢
  cases h2 : getEnvVar w.env "CHARGEBEE_SITE" with
  | error e => simp [h2, RunResult.throw] at h
  | ok s =>
  simp only [h2] at h ⊢
  cases h3 : getEnvVar w.env "CHARGEBEE_WEBHOOK_USERNAME" with
  | error e => simp [h3, RunResult.throw] at h
  | ok un =>
  simp only [h3] at h ⊢
  cases h4 : getEnvVar w.env "CHARGEBEE_WEBHOOK_PASSWORD" with
  | error e => simp [h4, RunResult.throw] at h
  | ok pw =>
  simp only [h4] at h ⊢
  rw [RunResult.bind_eq_of_ok _ (endpointsOf w)
    (rfl : (getChargebeeWebhookEndpoints w).result = .ok (endpointsOf w))] at h ⊢
  cases h5 : (endpointsOf w).find?
      (fun endpoint => endpoint.name == "Hookdeck Webhook Endpoint") with
  | some ep =>
      simp only [h5] at h ⊢
      exact ⟨ApiCall.chargebeeUpdateEndpoint ep.id
          ⟨none, url, eventTypes, "v2", ⟨"basic_auth", un, pw⟩⟩,
        by simp [getChargebeeWebhookEndpoints, updateChargebeeWebhookEndpoint],
        .inr ⟨_, _, rfl⟩⟩
  | none =>
      simp only [h5] at h ⊢
      exact ⟨ApiCall.chargebeeCreateEndpoint
          ⟨some "Hookdeck Webhook Endpoint", url, eventTypes, "v2",
            ⟨"basic_auth", un, pw⟩⟩,
        by simp [getChargebeeWebhookEndpoints, createChargebeeWebhookEndpoint],
        .inl ⟨_, rfl⟩⟩

/-- C1: every event type in the fixed subscribed-event list matches exactly one
of the three Connection filter predicates (customer starts-with, subscription
starts-with, payment equals), and none matches zero or two; this holds both for
the 20-entry ALL_WEBHOOK_EVENTS list and for the inline 21-entry list. -/
theorem connection_filter_partition :
    ∃ cs, buildConnections .dev (fun _ => none) "src_1" = .ok cs ∧
      cs.map (fun c => c.rules) =
        [ [⟨.startsWith "customer_"⟩],
          [⟨.startsWith "subscription_"⟩],
          [⟨.eq "payment_succeeded"⟩] ] ∧
      (ALL_WEBHOOK_EVENTS.all fun e => rulesMatchCount cs e == 1) = true ∧
      (eventTypes.all fun e => rulesMatchCount cs e == 1) = true := by
  refine ⟨_, rfl, rfl, ?_, ?_⟩ <;> decide

/-- C5: the three Connection destination descriptors are determined by the run
mode alone: dev mode gives CLI destinations carrying the fixed role path and no
url, prod mode gives HTTP destinations carrying the configured base url
concatenated with the same fixed path and no path. -/
theorem destination_shape_by_mode :
    (∀ env sourceId cs, buildConnections .dev env sourceId = .ok cs →
        cs.map (fun c => c.destination) =
          [ ⟨"chargebee-customer-handler", "CLI",
              ⟨some "/webhooks/chargebee/customer", none⟩⟩,
            ⟨"chargebee-subscription-handler", "CLI",
              ⟨some "/webhooks/chargebee/subscription", none⟩⟩,
            ⟨"chargebee-payment-handler", "CLI",
              ⟨some "/webhooks/chargebee/payments", none⟩⟩ ])
  ∧ ∀ env sourceId base cs, getEnvVar env "PROD_DESTINATION_URL" = .ok base →
      buildConnections .prod env sourceId = .ok cs →
      cs.map (fun c => c.destination) =
        [ ⟨"chargebee-customer-handler", "HTTP",
            ⟨none, some (base ++ "/webhooks/chargebee/customer")⟩⟩,
          ⟨"chargebee-subscription-handler", "HTTP",
            ⟨none, some (base ++ "/webhooks/chargebee/subscription")⟩⟩,
          ⟨"chargebee-payment-handler", "HTTP",
            ⟨none, some (base ++ "/webhooks/chargebee/payments")⟩⟩ ] := by
  constructor
  · intro env sourceId cs h
    simp [buildConnections, createDestination] at h
    subst h
    rfl
  · intro env sourceId base cs hbase h
    simp [buildConnections, createDestination, hbase] at h
    subst h
    rfl

/-- Witness for C5 at a concrete environment in both modes. -/
theorem destination_shape_by_mode_witness :
    (∃ cs, buildConnections .dev sampleEnv "src_1" = .ok cs ∧
      cs.map (fun c => c.destination) =
        [ ⟨"chargebee-customer-handler", "CLI",
            ⟨some "/webhooks/chargebee/customer", none⟩⟩,
          ⟨"chargebee-subscription-handler", "CLI",
            ⟨some "/webhooks/chargebee/subscription", none⟩⟩,
          ⟨"chargebee-payment-handler", "CLI",
            ⟨some "/webhooks/chargebee/payments", none⟩⟩ ])
  ∧ ∃ cs, buildConnections .prod sampleEnv "src_1" = .ok cs ∧
      cs.map (fun c => c.destination) =
        [ ⟨"chargebee-customer-handler", "HTTP",
            ⟨none, some ("https://example.com" ++ "/webhooks/chargebee/customer")⟩⟩,
          ⟨"chargebee-subscription-handler", "HTTP",
            ⟨none, some ("https://example.com" ++ "/webhooks/chargebee/subscription")⟩⟩,
          ⟨"chargebee-payment-handler", "HTTP",
            ⟨none, some ("https://example.com" ++ "/webhooks/chargebee/payments")⟩⟩ ] :=
  ⟨⟨_, rfl, destination_shape_by_mode.1 sampleEnv "src_1" _ rfl⟩,
   ⟨_, rfl, destination_shape_by_mode.2 sampleEnv "src_1" "https://example.com" _ rfl rfl⟩⟩

/-- C8 counterexample: the mode argument is lowercased before the comparison, so
the argument vector ["DEV"], whose mode string is neither exactly "dev" nor
exactly "prod", is accepted and the run proceeds to issue network calls instead
of exiting. -/
theorem mode_arg_case_insensitive :
    parseMode ["DEV"] = .ok .dev ∧
    ("DEV" ≠ "dev" ∧ "DEV" ≠ "prod") ∧
    (main ["DEV"] sampleWorld).result = .ok () ∧
    (main ["DEV"] sampleWorld).calls ≠ [] := by
  refine ⟨rfl, by decide, rfl, by decide⟩

/-- C8 amended: the CLI accepts exactly one positional mode argument; it is
accepted iff its ASCII lowercasing is "dev" or "prod", and a missing or
otherwise invalid mode makes the run exit non-zero before any network call. -/
theorem mode_parsing_amended :
    (∀ args mode, parseMode args = .ok mode ↔
        ∃ a rest, args = a :: rest ∧
          ((toLowerAscii a = "dev" ∧ mode = .dev) ∨
           (toLowerAscii a = "prod" ∧ mode = .prod)))
  ∧ ∀ args w e, parseMode args = .error e → (main args w).calls = [] := by
  constructor
  · intro args mode
    constructor
    · intro h
      match args with
      | [] => simp [parseMode] at h
      | a :: rest =>
          refine ⟨a, rest, rfl, ?_⟩
          simp only [parseMode] at h
          split_ifs at h with h1 h2
          · cases h
            exact .inl ⟨h1, rfl⟩
          · cases h
            exact .inr ⟨h2, rfl⟩
    · rintro ⟨a, rest, rfl, hcase⟩
      rcases hcase with ⟨ha, rfl⟩ | ⟨ha, rfl⟩
      · simp [parseMode, ha]
      · simp [parseMode, ha]
  · intro args w e h
    simp [main, h, RunResult.throw]

/-- Witness for C8 amended: "prod" parses, and with no argument no call is made. -/
theorem mode_parsing_amended_witness :
    parseMode ["prod"] = .ok .prod ∧ (main [] sampleWorld).calls = [] :=
  ⟨(mode_parsing_amended.1 ["prod"] .prod).2 ⟨"prod", [], rfl, .inr ⟨by decide, rfl⟩⟩,
   mode_parsing_amended.2 [] sampleWorld "Mode argument required (dev or prod)" rfl⟩

/-- C10: the environment helper treats a variable set to the empty string the
same as an unset one, throwing the missing-variable error in both cases, and
returns any non-empty value unchanged. -/
theorem getEnvVar_blank_is_missing :
    (∀ env name, env name = none →
        getEnvVar env name =
          .error ("Missing required environment variable: " ++ name))
  ∧ (∀ env name, env name = some "" →
        getEnvVar env name =
          .error ("Missing required environment variable: " ++ name))
  ∧ ∀ env name v, env name = some v → v ≠ "" → getEnvVar env name = .ok v := by
  refine ⟨fun env name h => ?_, fun env name h => ?_, fun env name v h hv => ?_⟩
  · unfold getEnvVar
    rw [h]
  · unfold getEnvVar
    rw [h]
    simp
  · unfold getEnvVar
    rw [h]
    simp [hv]

/-- Witness for C10 at concrete environments. -/
theorem getEnvVar_blank_is_missing_witness :
    getEnvVar (fun _ => none) "A" =
      .error ("Missing required environment variable: " ++ "A") ∧
    getEnvVar (fun _ => some "") "B" =
      .error ("Missing required environment variable: " ++ "B") ∧
    getEnvVar (fun _ => some "x") "C" = .ok "x" :=
  ⟨getEnvVar_blank_is_missing.1 _ "A" rfl,
   getEnvVar_blank_is_missing.2.1 _ "B" rfl,
   getEnvVar_blank_is_missing.2.2 _ "C" "x" rfl (by decide)⟩

/-- C2 counterexample: in a concrete successful dev run the billing create
request carries the inline 21-entry event list, which is not the fixed 20-entry
list of subscribed events: it additionally contains customer_updated. -/
theorem billing_event_list_counterexample :
    ApiCall.chargebeeCreateEndpoint
        ⟨some "Hookdeck Webhook Endpoint", "https://hkdk.example/abc",
          eventTypes, "v2", ⟨"basic_auth", "hookdeck", "secret"⟩⟩ ∈
      (main ["dev"] sampleWorld).calls ∧
    eventTypes ≠ specSubscribedEvents ∧
    eventTypes.length = 21 ∧
    specSubscribedEvents.length = 20 ∧
    "customer_updated" ∈ eventTypes ∧
    "customer_updated" ∉ specSubscribedEvents := by
  exact ⟨by decide, by decide, rfl, rfl, by decide, by decide⟩

/-- C2 amended: every billing-endpoint create and update request of the
HTTP-variant reconciler carries the same fixed event list in both branches and
on every run, namely the inline 21-entry list (the 20 subscribed identifiers
plus customer_updated, sent as webhook_events); the SDK-variant reconciler
passes enabled_events equal to ALL_WEBHOOK_EVENTS, which is exactly the fixed
20-entry list, in both branches. -/
theorem billing_event_list_amended :
    (∀ args w b, ApiCall.chargebeeCreateEndpoint b ∈ (main args w).calls →
        b.webhook_events = eventTypes)
  ∧ (∀ args w i b, ApiCall.chargebeeUpdateEndpoint i b ∈ (main args w).calls →
        b.webhook_events = eventTypes)
  ∧ (∀ u un p, (sdkCreateParams u un p).enabled_events = specSubscribedEvents ∧
        (sdkUpdateParams u un p).enabled_events = specSubscribedEvents)
  ∧ ALL_WEBHOOK_EVENTS = specSubscribedEvents
  ∧ eventTypes ≠ ALL_WEBHOOK_EVENTS := by
  refine ⟨?_, ?_, fun u un p => ⟨rfl, rfl⟩, rfl, by decide⟩
  · intro args w b h
    rcases main_calls_shape args w _ h with ⟨s, h1⟩ | ⟨cn, h1⟩ | h1 |
      ⟨b2, h1, h2⟩ | ⟨i, b2, h1, h2⟩
    · simp at h1
    · simp at h1
    · simp at h1
    · rw [ApiCall.chargebeeCreateEndpoint.injEq] at h1
      rw [h1]
      exact h2
    · simp at h1
  · intro args w i b h
    rcases main_calls_shape args w _ h with ⟨s, h1⟩ | ⟨cn, h1⟩ | h1 |
      ⟨b2, h1, h2⟩ | ⟨i2, b2, h1, h2⟩
    · simp at h1
    · simp at h1
    · simp at h1
    · simp at h1
    · rw [ApiCall.chargebeeUpdateEndpoint.injEq] at h1
      rw [h1.2]
      exact h2

/-- Witness for C2 amended: the create request of a concrete dev run carries
the inline 21-entry list. -/
theorem billing_event_list_amended_witness :
    (ApiCall.chargebeeCreateEndpoint
        ⟨some "Hookdeck Webhook Endpoint", "https://hkdk.example/abc",
          eventTypes, "v2", ⟨"basic_auth", "hookdeck", "secret"⟩⟩ ∈
      (main ["dev"] sampleWorld).calls) ∧
    (⟨some "Hookdeck Webhook Endpoint", "https://hkdk.example/abc",
        eventTypes, "v2",
        ⟨"basic_auth", "hookdeck", "secret"⟩⟩ : ChargebeeEndpointBody).webhook_events
      = eventTypes :=
  ⟨by decide,
   billing_event_list_amended.1 ["dev"] sampleWorld _ (by decide)⟩

/-- C3: the branch of the billing-endpoint upsert is selected by the presence of
an endpoint named "Hookdeck Webhook Endpoint" in the listed endpoints: if one is
present the phase issues the list call and exactly one update against the id of
such an endpoint and no create; if none is present it issues the list call and
exactly one create and no update. -/
theorem endpoint_branch_selection :
    ∀ mode w url k s u p items,
      getEnvVar w.env "CHARGEBEE_API_KEY" = .ok k →
      getEnvVar w.env "CHARGEBEE_SITE" = .ok s →
      getEnvVar w.env "CHARGEBEE_WEBHOOK_USERNAME" = .ok u →
      getEnvVar w.env "CHARGEBEE_WEBHOOK_PASSWORD" = .ok p →
      w.listResponse = .ok ⟨some items⟩ →
      ((∃ ep ∈ items.map (fun item => item.webhook_endpoint),
          ep.name = "Hookdeck Webhook Endpoint") →
        ∃ ep ∈ items.map (fun item => item.webhook_endpoint),
          ep.name = "Hookdeck Webhook Endpoint" ∧
          ∃ b, (setupChargebeeWebhook mode w url).calls =
            [ApiCall.chargebeeListEndpoints,
              ApiCall.chargebeeUpdateEndpoint ep.id b])
    ∧ ((∀ ep ∈ items.map (fun item => item.webhook_endpoint),
          ep.name ≠ "Hookdeck Webhook Endpoint") →
        ∃ b, (setupChargebeeWebhook mode w url).calls =
          [ApiCall.chargebeeListEndpoints, ApiCall.chargebeeCreateEndpoint b]) := by
  intro mode w url k s u p items hk hs hu hp hlist
  have heps : endpointsOf w = items.map (fun item => item.webhook_endpoint) := by
    unfold endpointsOf
    rw [hlist]
  unfold setupChargebeeWebhook
  simp only [hk, hs, hu, hp]
  rw [RunResult.bind_eq_of_ok _ (endpointsOf w)
    (rfl : (getChargebeeWebhookEndpoints w).result = .ok (endpointsOf w))]
  cases hf : (endpointsOf w).find?
      (fun endpoint => endpoint.name == "Hookdeck Webhook Endpoint") with
  | some ep =>
      simp only [hf]
      constructor
      · intro _
        refine ⟨ep, ?_, ?_,
          ⟨⟨none, url, eventTypes, "v2", ⟨"basic_auth", u, p⟩⟩, ?_⟩⟩
        · rw [← heps]
          exact List.mem_of_find?_eq_some hf
        · have := List.find?_some hf
          simpa using this
        · simp [getChargebeeWebhookEndpoints, updateChargebeeWebhookEndpoint]
      · intro hnone
        exfalso
        have hmem : ep ∈ items.map (fun item => item.webhook_endpoint) := by
          rw [← heps]
          exact List.mem_of_find?_eq_some hf
        have := List.find?_some hf
        exact hnone ep hmem (by simpa using this)
  | none =>
      simp only [hf]
      constructor
      · rintro ⟨ep, hmem, hname⟩
        exfalso
        have := List.find?_eq_none.mp hf ep (heps ▸ hmem)
        simp [hname] at this
      · intro _
        exact ⟨⟨some "Hookdeck Webhook Endpoint", url, eventTypes, "v2",
            ⟨"basic_auth", u, p⟩⟩,
          by simp [getChargebeeWebhookEndpoints, createChargebeeWebhookEndpoint]⟩

/-- Witness for C3: with an existing endpoint named "Hookdeck Webhook Endpoint"
the phase issues exactly the list call and one update against its id. -/
theorem endpoint_branch_selection_witness :
    ∃ ep ∈ ([⟨⟨"we_1", "Hookdeck Webhook Endpoint"⟩⟩] : List ListItem).map
        (fun item => item.webhook_endpoint),
      ep.name = "Hookdeck Webhook Endpoint" ∧
      ∃ b, (setupChargebeeWebhook .dev existingEndpointWorld "u").calls =
        [ApiCall.chargebeeListEndpoints,
          ApiCall.chargebeeUpdateEndpoint ep.id b] :=
  (endpoint_branch_selection .dev existingEndpointWorld "u" "cb_key" "acme"
      "hookdeck" "secret" [⟨⟨"we_1", "Hookdeck Webhook Endpoint"⟩⟩]
      rfl rfl rfl rfl rfl).1
    ⟨⟨"we_1", "Hookdeck Webhook Endpoint"⟩, by decide, rfl⟩

/-- A Hookdeck setup whose Source upsert response lacks a url throws, having
issued only the Source upsert (or nothing, when an environment variable was
already missing). -/
theorem setupHookdeckConnections_url_none (mode : Mode) (w : World)
    (h : w.sourceResponse.url = none) :
    (∃ e, (setupHookdeckConnections mode w).result = .error e) ∧
      ∀ c ∈ (setupHookdeckConnections mode w).calls,
        ∃ s, c = ApiCall.sourceUpsert s := by
  unfold setupHookdeckConnections
  cases h1 : getEnvVar w.env "HOOKDECK_API_KEY" with
  | error e =>
      simp only [h1]
      exact ⟨⟨e, rfl⟩, by simp [RunResult.throw]⟩
  | ok k =>
  simp only [h1]
  cases h2 : getEnvVar w.env "CHARGEBEE_WEBHOOK_USERNAME" with
  | error e =>
      simp only [h2]
      exact ⟨⟨e, rfl⟩, by simp [RunResult.throw]⟩
  | ok un =>
  simp only [h2]
  cases h3 : getEnvVar w.env "CHARGEBEE_WEBHOOK_PASSWORD" with
  | error e =>
      simp only [h3]
      exact ⟨⟨e, rfl⟩, by simp [RunResult.throw]⟩
  | ok pw =>
  simp only [h3]
  rw [RunResult.bind_eq_of_error _ "Source response missing URL"
    (by simp [upsertHookdeckSource, h])]
  refine ⟨⟨"Source response missing URL", rfl⟩, ?_⟩
  intro c hc
  simp [upsertHookdeckSource] at hc
  exact ⟨_, hc⟩

/-- C4: when the Source upsert response lacks a url field, the run fails, and
its trace contains only the Source upsert itself: no Connection upsert and no
billing call (list, create or update) is ever issued. -/
theorem abort_on_missing_source_url :
    ∀ args w, w.sourceResponse.url = none →
      (∃ e, (main args w).result = .error e) ∧
        ∀ c ∈ (main args w).calls, ∃ s, c = ApiCall.sourceUpsert s := by
  intro args w h
  unfold main
  cases hp : parseMode args with
  | error e =>
      simp only [hp]
      exact ⟨⟨e, rfl⟩, by simp [RunResult.throw]⟩
  | ok mode =>
      simp only [hp]
      unfold runScript
      obtain ⟨⟨e, he⟩, hcalls⟩ := setupHookdeckConnections_url_none mode w h
      rw [RunResult.bind_eq_of_error _ e he]
      exact ⟨⟨e, rfl⟩, hcalls⟩

/-- Witness for C4 at a concrete world whose source response has no url. -/
theorem abort_on_missing_source_url_witness :
    (∃ e, (main ["dev"] noUrlWorld).result = .error e) ∧
      ∀ c ∈ (main ["dev"] noUrlWorld).calls, ∃ s, c = ApiCall.sourceUpsert s :=
  abort_on_missing_source_url ["dev"] noUrlWorld rfl

/-- C6 counterexample: with every variable set except the billing API key, the
dev-mode run issues the Source upsert and the three Connection upserts before
failing on the missing variable, so the failure is not before every network
call. -/
theorem env_failure_after_network_calls :
    (main ["dev"] missingKeyWorld).result =
      .error ("Missing required environment variable: " ++ "CHARGEBEE_API_KEY") ∧
    (main ["dev"] missingKeyWorld).calls.length = 4 ∧
    (main ["dev"] missingKeyWorld).calls ≠ [] := by
  exact ⟨rfl, rfl, by decide⟩

/-- C6 amended: a missing gateway API key or webhook credential is fatal before
any network call; a missing billing API key or site identifier is fatal with no
billing call ever issued, but only after the gateway calls already in the trace;
and in prod mode a missing base destination url is fatal after the Source upsert
and before any Connection upsert. -/
theorem env_failure_points_amended :
    (∀ args w e, getEnvVar w.env "HOOKDECK_API_KEY" = .error e →
        (main args w).calls = [] ∧ ∃ m, (main args w).result = .error m)
  ∧ (∀ args w k e, getEnvVar w.env "HOOKDECK_API_KEY" = .ok k →
        getEnvVar w.env "CHARGEBEE_WEBHOOK_USERNAME" = .error e →
        (main args w).calls = [] ∧ ∃ m, (main args w).result = .error m)
  ∧ (∀ args w k un e, getEnvVar w.env "HOOKDECK_API_KEY" = .ok k →
        getEnvVar w.env "CHARGEBEE_WEBHOOK_USERNAME" = .ok un →
        getEnvVar w.env "CHARGEBEE_WEBHOOK_PASSWORD" = .error e →
        (main args w).calls = [] ∧ ∃ m, (main args w).result = .error m)
  ∧ (∀ args w e, getEnvVar w.env "CHARGEBEE_API_KEY" = .error e →
        (∃ m, (main args w).result = .error m) ∧
          ∀ c ∈ (main args w).calls,
            (∃ s, c = ApiCall.sourceUpsert s) ∨
              ∃ cn, c = ApiCall.connectionUpsert cn)
  ∧ (∀ args w k e, getEnvVar w.env "CHARGEBEE_API_KEY" = .ok k →
        getEnvVar w.env "CHARGEBEE_SITE" = .error e →
        (∃ m, (main args w).result = .error m) ∧
          ∀ c ∈ (main args w).calls,
            (∃ s, c = ApiCall.sourceUpsert s) ∨
              ∃ cn, c = ApiCall.connectionUpsert cn)
  ∧ ∀ w u e k un p, getEnvVar w.env "HOOKDECK_API_KEY" = .ok k →
      getEnvVar w.env "CHARGEBEE_WEBHOOK_USERNAME" = .ok un →
      getEnvVar w.env "CHARGEBEE_WEBHOOK_PASSWORD" = .ok p →
      w.sourceResponse.url = some u → u ≠ "" →
      getEnvVar w.env "PROD_DESTINATION_URL" = .error e →
      (main ["prod"] w).calls =
        [ApiCall.sourceUpsert ⟨"chargebee", "CHARGEBEE_BILLING", ⟨⟨un, p⟩⟩⟩] ∧
        (main ["prod"] w).result = .error e := by
  refine ⟨?_, ?_, ?_, ?_, ?_, ?_⟩
  · intro args w e h
    unfold main
    cases hp : parseMode args with
    | error e2 =>
        simp only [hp]
        exact ⟨rfl, ⟨e2, rfl⟩⟩
    | ok mode =>
        simp only [hp]
        unfold runScript
        have hsetup : setupHookdeckConnections mode w = RunResult.throw e := by
          unfold setupHookdeckConnections
          rw [h]
        rw [hsetup, RunResult.bind_eq_of_error _ e rfl]
        exact ⟨rfl, ⟨e, rfl⟩⟩
  · intro args w k e hk h
    unfold main
    cases hp : parseMode args with
    | error e2 =>
        simp only [hp]
        exact ⟨rfl, ⟨e2, rfl⟩⟩
    | ok mode =>
        simp only [hp]
        unfold runScript
        have hsetup : setupHookdeckConnections mode w = RunResult.throw e := by
          unfold setupHookdeckConnections
          rw [hk, h]
        rw [hsetup, RunResult.bind_eq_of_error _ e rfl]
        exact ⟨rfl, ⟨e, rfl⟩⟩
  · intro args w k un e hk hun h
    unfold main
    cases hp : parseMode args with
    | error e2 =>
        simp only [hp]
        exact ⟨rfl, ⟨e2, rfl⟩⟩
    | ok mode =>
        simp only [hp]
        unfold runScript
        have hsetup : setupHookdeckConnections mode w = RunResult.throw e := by
          unfold setupHookdeckConnections
          rw [hk, hun, h]
        rw [hsetup, RunResult.bind_eq_of_error _ e rfl]
        exact ⟨rfl, ⟨e, rfl⟩⟩
  · intro args w e h
    unfold main
    cases hp : parseMode args with
    | error e2 =>
        simp only [hp]
        exact ⟨⟨e2, rfl⟩, by simp [RunResult.throw]⟩
    | ok mode =>
        simp only [hp]
        unfold runScript
        cases hs : (setupHookdeckConnections mode w).result with
        | error e2 =>
            rw [RunResult.bind_eq_of_error _ e2 hs]
            exact ⟨⟨e2, rfl⟩, fun c hc => setupHookdeckConnections_calls mode w c hc⟩
        | ok url =>
            rw [RunResult.bind_eq_of_ok _ url hs]
            have hcw : setupChargebeeWebhook mode w url = RunResult.throw e := by
              unfold setupChargebeeWebhook
              rw [h]
            rw [hcw]
            refine ⟨⟨e, rfl⟩, fun c hc => ?_⟩
            simp [RunResult.throw] at hc
            exact setupHookdeckConnections_calls mode w c hc
  · intro args w k e hk h
    unfold main
    cases hp : parseMode args with
    | error e2 =>
        simp only [hp]
        exact ⟨⟨e2, rfl⟩, by simp [RunResult.throw]⟩
    | ok mode =>
        simp only [hp]
        unfold runScript
        cases hs : (setupHookdeckConnections mode w).result with
        | error e2 =>
            rw [RunResult.bind_eq_of_error _ e2 hs]
            exact ⟨⟨e2, rfl⟩, fun c hc => setupHookdeckConnections_calls mode w c hc⟩
        | ok url =>
            rw [RunResult.bind_eq_of_ok _ url hs]
            have hcw : setupChargebeeWebhook mode w url = RunResult.throw e := by
              unfold setupChargebeeWebhook
              rw [hk, h]
            rw [hcw]
            refine ⟨⟨e, rfl⟩, fun c hc => ?_⟩
            simp [RunResult.throw] at hc
            exact setupHookdeckConnections_calls mode w c hc
  · intro w u e k un p hk hun hpw hu hne he
    have hsetup : setupHookdeckConnections .prod w =
        ⟨[ApiCall.sourceUpsert ⟨"chargebee", "CHARGEBEE_BILLING", ⟨⟨un, p⟩⟩⟩],
          .error e⟩ := by
      unfold setupHookdeckConnections
      simp only [hk, hun, hpw]
      rw [RunResult.bind_eq_of_ok _ w.sourceResponse
        (by simp [upsertHookdeckSource, hu, hne])]
      simp only [hu]
      rw [if_neg hne]
      have hb : buildConnections .prod w.env w.sourceResponse.id = .error e := by
        unfold buildConnections createDestination
        rw [he]
      rw [hb]
      simp [upsertHookdeckSource, RunResult.throw, PROJECT_SOURCE_NAME]
    have hp2 : parseMode ["prod"] = .ok .prod := rfl
    unfold main
    simp only [hp2]
    unfold runScript
    rw [hsetup, RunResult.bind_eq_of_error _ e rfl]
    exact ⟨rfl, rfl⟩

/-- Witness for C6 amended, applying its parts at concrete worlds. -/
theorem env_failure_points_amended_witness :
    ((main ["dev"] ⟨fun _ => none, ⟨"s", none⟩, fun _ => .ok (), .ok ⟨none⟩,
        .ok (), .ok ()⟩).calls = [] ∧
      ∃ m, (main ["dev"] ⟨fun _ => none, ⟨"s", none⟩, fun _ => .ok (),
        .ok ⟨none⟩, .ok (), .ok ()⟩).result = .error m) ∧
    ((∃ m, (main ["dev"] missingKeyWorld).result = .error m) ∧
      ∀ c ∈ (main ["dev"] missingKeyWorld).calls,
        (∃ s, c = ApiCall.sourceUpsert s) ∨
          ∃ cn, c = ApiCall.connectionUpsert cn) ∧
    ((main ["prod"] prodNoUrlWorld).calls =
        [ApiCall.sourceUpsert ⟨"chargebee", "CHARGEBEE_BILLING",
          ⟨⟨"hookdeck", "secret"⟩⟩⟩] ∧
      (main ["prod"] prodNoUrlWorld).result =
        .error ("Missing required environment variable: " ++
          "PROD_DESTINATION_URL")) :=
  ⟨env_failure_points_amended.1 ["dev"] _ _ rfl,
   env_failure_points_amended.2.2.2.1 ["dev"] missingKeyWorld _ rfl,
   env_failure_points_amended.2.2.2.2.2 prodNoUrlWorld "https://hkdk.example/abc"
     _ "hk_key" "hookdeck" "secret" rfl rfl rfl rfl (by decide) rfl⟩

/-- C7: a failure of the billing endpoint-listing call is caught and yields the
empty endpoint list, after which the phase proceeds to the create branch, whose
outcome is exactly the create call's own; a failing create, and a failing
update in the update branch, propagate as the phase's error. -/
theorem listing_failure_fail_open :
    (∀ w e, w.listResponse = .error e →
        getChargebeeWebhookEndpoints w =
          ⟨[ApiCall.chargebeeListEndpoints], .ok []⟩)
  ∧ (∀ mode w url k s u p e,
        getEnvVar w.env "CHARGEBEE_API_KEY" = .ok k →
        getEnvVar w.env "CHARGEBEE_SITE" = .ok s →
        getEnvVar w.env "CHARGEBEE_WEBHOOK_USERNAME" = .ok u →
        getEnvVar w.env "CHARGEBEE_WEBHOOK_PASSWORD" = .ok p →
        w.listResponse = .error e →
        ∃ b, (setupChargebeeWebhook mode w url).calls =
            [ApiCall.chargebeeListEndpoints, ApiCall.chargebeeCreateEndpoint b] ∧
          (setupChargebeeWebhook mode w url).result = w.createResult)
  ∧ ∀ mode w url k s u p ep msg,
      getEnvVar w.env "CHARGEBEE_API_KEY" = .ok k →
      getEnvVar w.env "CHARGEBEE_SITE" = .ok s →
      getEnvVar w.env "CHARGEBEE_WEBHOOK_USERNAME" = .ok u →
      getEnvVar w.env "CHARGEBEE_WEBHOOK_PASSWORD" = .ok p →
      (endpointsOf w).find?
        (fun endpoint => endpoint.name == "Hookdeck Webhook Endpoint") = some ep →
      w.updateResult = .error msg →
      (setupChargebeeWebhook mode w url).result = .error msg := by
  refine ⟨?_, ?_, ?_⟩
  · intro w e h
    unfold getChargebeeWebhookEndpoints endpointsOf
    rw [h]
  · intro mode w url k s u p e hk hs hu hp hlist
    have heps : endpointsOf w = [] := by
      unfold endpointsOf
      rw [hlist]
    unfold setupChargebeeWebhook
    simp only [hk, hs, hu, hp]
    rw [RunResult.bind_eq_of_ok _ (endpointsOf w)
      (rfl : (getChargebeeWebhookEndpoints w).result = .ok (endpointsOf w))]
    rw [heps]
    simp only [List.find?_nil]
    exact ⟨⟨some "Hookdeck Webhook Endpoint", url, eventTypes, "v2",
        ⟨"basic_auth", u, p⟩⟩,
      by simp [getChargebeeWebhookEndpoints, createChargebeeWebhookEndpoint],
      rfl⟩
  · intro mode w url k s u p ep msg hk hs hu hp hf hupd
    unfold setupChargebeeWebhook
    simp only [hk, hs, hu, hp]
    rw [RunResult.bind_eq_of_ok _ (endpointsOf w)
      (rfl : (getChargebeeWebhookEndpoints w).result = .ok (endpointsOf w))]
    simp only [hf]
    simp [updateChargebeeWebhookEndpoint, hupd]

/-- Witness for C7: with a failing list call and a succeeding create call the
phase ends in the create branch and succeeds; with an existing endpoint and a
failing update call the phase fails with that error. -/
theorem listing_failure_fail_open_witness :
    getChargebeeWebhookEndpoints listFailWorld =
      ⟨[ApiCall.chargebeeListEndpoints], .ok []⟩ ∧
    (∃ b, (setupChargebeeWebhook .dev listFailWorld "u").calls =
        [ApiCall.chargebeeListEndpoints, ApiCall.chargebeeCreateEndpoint b] ∧
      (setupChargebeeWebhook .dev listFailWorld "u").result =
        listFailWorld.createResult) ∧
    (setupChargebeeWebhook .dev
        { existingEndpointWorld with updateResult := .error "HTTP 400" }
        "u").result = .error "HTTP 400" :=
  ⟨listing_failure_fail_open.1 listFailWorld "HTTP 500" rfl,
   listing_failure_fail_open.2.1 .dev listFailWorld "u" "cb_key" "acme"
     "hookdeck" "secret" "HTTP 500" rfl rfl rfl rfl rfl,
   listing_failure_fail_open.2.2 .dev
     { existingEndpointWorld with updateResult := .error "HTTP 400" } "u"
     "cb_key" "acme" "hookdeck" "secret" ⟨"we_1", "Hookdeck Webhook Endpoint"⟩
     "HTTP 400" rfl rfl rfl rfl rfl rfl⟩

/-- The loop over the three built connections issues the upserts in order,
stopping after the first failure: its trace is one of the three non-empty
prefixes of the full three-upsert sequence, the full one whenever it succeeds. -/
theorem upsertConnectionsLoop3_trace (w : World) (i : Nat)
    (a b c : HookdeckConnection) :
    ((upsertConnectionsLoop w i [a, b, c]).calls = [ApiCall.connectionUpsert a] ∨
     (upsertConnectionsLoop w i [a, b, c]).calls =
       [ApiCall.connectionUpsert a, ApiCall.connectionUpsert b] ∨
     (upsertConnectionsLoop w i [a, b, c]).calls =
       [ApiCall.connectionUpsert a, ApiCall.connectionUpsert b,
         ApiCall.connectionUpsert c]) ∧
    ((upsertConnectionsLoop w i [a, b, c]).result = .ok () →
      (upsertConnectionsLoop w i [a, b, c]).calls =
        [ApiCall.connectionUpsert a, ApiCall.connectionUpsert b,
          ApiCall.connectionUpsert c]) := by
  simp only [upsertConnectionsLoop, upsertHookdeckConnection, RunResult.bind,
    RunResult.pure]
  cases h1 : w.connResults i with
  | error e => simp [h1]
  | ok u1 =>
      simp only [h1]
      cases h2 : w.connResults (i + 1) with
      | error e => simp [h2]
      | ok u2 =>
          simp only [h2]
          cases h3 : w.connResults (i + 1 + 1) with
          | error e => simp [h3]
          | ok u3 => simp [h3]

/-- Case analysis of every Hookdeck setup run: its trace is a prefix of the
Source upsert followed by the customer, subscription, payment Connection
upserts in that order, and the full four-call sequence whenever it succeeds. -/
theorem setupHookdeckConnections_trace (mode : Mode) (w : World) :
    ∃ src c1 c2 c3,
      c1.name = "chargebee-customer" ∧
      c2.name = "chargebee-subscription" ∧
      c3.name = "chargebee-payment" ∧
      ((setupHookdeckConnections mode w).calls = [] ∨
       (setupHookdeckConnections mode w).calls = [ApiCall.sourceUpsert src] ∨
       (setupHookdeckConnections mode w).calls =
         [ApiCall.sourceUpsert src, ApiCall.connectionUpsert c1] ∨
       (setupHookdeckConnections mode w).calls =
         [ApiCall.sourceUpsert src, ApiCall.connectionUpsert c1,
           ApiCall.connectionUpsert c2] ∨
       (setupHookdeckConnections mode w).calls =
         [ApiCall.sourceUpsert src, ApiCall.connectionUpsert c1,
           ApiCall.connectionUpsert c2, ApiCall.connectionUpsert c3]) ∧
      ∀ url, (setupHookdeckConnections mode w).result = .ok url →
        (setupHookdeckConnections mode w).calls =
          [ApiCall.sourceUpsert src, ApiCall.connectionUpsert c1,
            ApiCall.connectionUpsert c2, ApiCall.connectionUpsert c3] := by
  unfold setupHookdeckConnections
  cases h1 : getEnvVar w.env "HOOKDECK_API_KEY" with
  | error e =>
      simp only [h1]
      exact ⟨⟨"", "", ⟨⟨"", ""⟩⟩⟩,
        ⟨"chargebee-customer", "", ⟨"", "", ⟨none, none⟩⟩, []⟩,
        ⟨"chargebee-subscription", "", ⟨"", "", ⟨none, none⟩⟩, []⟩,
        ⟨"chargebee-payment", "", ⟨"", "", ⟨none, none⟩⟩, []⟩,
        rfl, rfl, rfl, .inl rfl, fun url h => by simp [RunResult.throw] at h⟩
  | ok apiKey =>
  simp only [h1]
  cases h2 : getEnvVar w.env "CHARGEBEE_WEBHOOK_USERNAME" with
  | error e =>
      simp only [h2]
      exact ⟨⟨"", "", ⟨⟨"", ""⟩⟩⟩,
        ⟨"chargebee-customer", "", ⟨"", "", ⟨none, none⟩⟩, []⟩,
        ⟨"chargebee-subscription", "", ⟨"", "", ⟨none, none⟩⟩, []⟩,
        ⟨"chargebee-payment", "", ⟨"", "", ⟨none, none⟩⟩, []⟩,
        rfl, rfl, rfl, .inl rfl, fun url h => by simp [RunResult.throw] at h⟩
  | ok un =>
  simp only [h2]
  cases h3 : getEnvVar w.env "CHARGEBEE_WEBHOOK_PASSWORD" with
  | error e =>
      simp only [h3]
      exact ⟨⟨"", "", ⟨⟨"", ""⟩⟩⟩,
        ⟨"chargebee-customer", "", ⟨"", "", ⟨none, none⟩⟩, []⟩,
        ⟨"chargebee-subscription", "", ⟨"", "", ⟨none, none⟩⟩, []⟩,
        ⟨"chargebee-payment", "", ⟨"", "", ⟨none, none⟩⟩, []⟩,
        rfl, rfl, rfl, .inl rfl, fun url h => by simp [RunResult.throw] at h⟩
  | ok pw =>
  simp only [h3]
  cases h4 : w.sourceResponse.url with
  | none =>
      rw [RunResult.bind_eq_of_error _ "Source response missing URL"
        (by simp [upsertHookdeckSource, h4])]
      exact ⟨⟨PROJECT_SOURCE_NAME, "CHARGEBEE_BILLING", ⟨⟨un, pw⟩⟩⟩,
        ⟨"chargebee-customer", "", ⟨"", "", ⟨none, none⟩⟩, []⟩,
        ⟨"chargebee-subscription", "", ⟨"", "", ⟨none, none⟩⟩, []⟩,
        ⟨"chargebee-payment", "", ⟨"", "", ⟨none, none⟩⟩, []⟩,
        rfl, rfl, rfl, .inr (.inl (by simp [upsertHookdeckSource])),
        fun url h => by simp at h⟩
  | some u =>
  by_cases h5 : u = ""
  · rw [RunResult.bind_eq_of_error _ "Source response missing URL"
      (by simp [upsertHookdeckSource, h4, h5])]
    exact ⟨⟨PROJECT_SOURCE_NAME, "CHARGEBEE_BILLING", ⟨⟨un, pw⟩⟩⟩,
      ⟨"chargebee-customer", "", ⟨"", "", ⟨none, none⟩⟩, []⟩,
      ⟨"chargebee-subscription", "", ⟨"", "", ⟨none, none⟩⟩, []⟩,
      ⟨"chargebee-payment", "", ⟨"", "", ⟨none, none⟩⟩, []⟩,
      rfl, rfl, rfl, .inr (.inl (by simp [upsertHookdeckSource])),
      fun url h => by simp at h⟩
  · rw [RunResult.bind_eq_of_ok _ w.sourceResponse
      (by simp [upsertHookdeckSource, h4, h5] :
        (upsertHookdeckSource w
          ⟨PROJECT_SOURCE_NAME, "CHARGEBEE_BILLING", ⟨⟨un, pw⟩⟩⟩).result
          = .ok w.sourceResponse)]
    simp only [h4]
    rw [if_neg h5]
    cases h6 : buildConnections mode w.env w.sourceResponse.id with
    | error e =>
        simp only [h6]
        exact ⟨⟨PROJECT_SOURCE_NAME, "CHARGEBEE_BILLING", ⟨⟨un, pw⟩⟩⟩,
          ⟨"chargebee-customer", "", ⟨"", "", ⟨none, none⟩⟩, []⟩,
          ⟨"chargebee-subscription", "", ⟨"", "", ⟨none, none⟩⟩, []⟩,
          ⟨"chargebee-payment", "", ⟨"", "", ⟨none, none⟩⟩, []⟩,
          rfl, rfl, rfl,
          .inr (.inl (by simp [upsertHookdeckSource, RunResult.throw])),
          fun url h => by simp [RunResult.throw] at h⟩
    | ok cs =>
    obtain ⟨d1, d2, d3, rfl⟩ := buildConnections_roles mode w.env _ cs h6
    simp only [h6]
    obtain ⟨hdisj, hfull⟩ := upsertConnectionsLoop3_trace w 0
      ⟨"chargebee-customer", w.sourceResponse.id, d1,
        [⟨.startsWith "customer_"⟩]⟩
      ⟨"chargebee-subscription", w.sourceResponse.id, d2,
        [⟨.startsWith "subscription_"⟩]⟩
      ⟨"chargebee-payment", w.sourceResponse.id, d3,
        [⟨.eq "payment_succeeded"⟩]⟩
    cases hloop : (upsertConnectionsLoop w 0
        [ ⟨"chargebee-customer", w.sourceResponse.id, d1,
            [⟨.startsWith "customer_"⟩]⟩,
          ⟨"chargebee-subscription", w.sourceResponse.id, d2,
            [⟨.startsWith "subscription_"⟩]⟩,
          ⟨"chargebee-payment", w.sourceResponse.id, d3,
            [⟨.eq "payment_succeeded"⟩]⟩ ]).result with
    | error e =>
        rw [RunResult.bind_eq_of_error _ e hloop]
        refine ⟨⟨PROJECT_SOURCE_NAME, "CHARGEBEE_BILLING", ⟨⟨un, pw⟩⟩⟩,
          ⟨"chargebee-customer", w.sourceResponse.id, d1,
            [⟨.startsWith "customer_"⟩]⟩,
          ⟨"chargebee-subscription", w.sourceResponse.id, d2,
            [⟨.startsWith "subscription_"⟩]⟩,
          ⟨"chargebee-payment", w.sourceResponse.id, d3,
            [⟨.eq "payment_succeeded"⟩]⟩,
          rfl, rfl, rfl, ?_, fun url h => by simp at h⟩
        rcases hdisj with h7 | h7 | h7
        · exact .inr (.inr (.inl (by simp [upsertHookdeckSource, h7])))
        · exact .inr (.inr (.inr (.inl (by simp [upsertHookdeckSource, h7]))))
        · exact .inr (.inr (.inr (.inr (by simp [upsertHookdeckSource, h7]))))
    | ok uu =>
        cases uu
        rw [RunResult.bind_eq_of_ok _ () hloop]
        have h8 := hfull hloop
        exact ⟨⟨PROJECT_SOURCE_NAME, "CHARGEBEE_BILLING", ⟨⟨un, pw⟩⟩⟩,
          ⟨"chargebee-customer", w.sourceResponse.id, d1,
            [⟨.startsWith "customer_"⟩]⟩,
          ⟨"chargebee-subscription", w.sourceResponse.id, d2,
            [⟨.startsWith "subscription_"⟩]⟩,
          ⟨"chargebee-payment", w.sourceResponse.id, d3,
            [⟨.eq "payment_succeeded"⟩]⟩,
          rfl, rfl, rfl,
          .inr (.inr (.inr (.inr
            (by simp [upsertHookdeckSource, RunResult.pure, h8])))),
          fun url h => by simp [upsertHookdeckSource, RunResult.pure, h8]⟩

/-- Case analysis of every Chargebee setup run: its trace is empty (an
environment variable was missing, and then the phase failed) or the listing
call immediately followed by exactly one create or one update. -/
theorem setupChargebeeWebhook_trace (mode : Mode) (w : World) (url : String) :
    ∃ last,
      ((∃ b, last = ApiCall.chargebeeCreateEndpoint b) ∨
        ∃ i b, last = ApiCall.chargebeeUpdateEndpoint i b) ∧
      ((setupChargebeeWebhook mode w url).calls = [] ∨
        (setupChargebeeWebhook mode w url).calls =
          [ApiCall.chargebeeListEndpoints, last]) ∧
      ((setupChargebeeWebhook mode w url).calls = [] →
        ∃ e, (setupChargebeeWebhook mode w url).result = .error e) := by
  unfold setupChargebeeWebhook
  cases h1 : getEnvVar w.env "CHARGEBEE_API_KEY" with
  | error e =>
      simp only [h1]
      exact ⟨ApiCall.chargebeeCreateEndpoint ⟨none, "", [], "", ⟨"", "", ""⟩⟩,
        .inl ⟨_, rfl⟩, .inl rfl, fun _ => ⟨e, rfl⟩⟩
  | ok k =>
  simp only [h1]
  cases h2 : getEnvVar w.env "CHARGEBEE_SITE" with
  | error e =>
      simp only [h2]
      exact ⟨ApiCall.chargebeeCreateEndpoint ⟨none, "", [], "", ⟨"", "", ""⟩⟩,
        .inl ⟨_, rfl⟩, .inl rfl, fun _ => ⟨e, rfl⟩⟩
  | ok site =>
  simp only [h2]
  cases h3 : getEnvVar w.env "CHARGEBEE_WEBHOOK_USERNAME" with
  | error e =>
      simp only [h3]
      exact ⟨ApiCall.chargebeeCreateEndpoint ⟨none, "", [], "", ⟨"", "", ""⟩⟩,
        .inl ⟨_, rfl⟩, .inl rfl, fun _ => ⟨e, rfl⟩⟩
  | ok un =>
  simp only [h3]
  cases h4 : getEnvVar w.env "CHARGEBEE_WEBHOOK_PASSWORD" with
  | error e =>
      simp only [h4]
      exact ⟨ApiCall.chargebeeCreateEndpoint ⟨none, "", [], "", ⟨"", "", ""⟩⟩,
        .inl ⟨_, rfl⟩, .inl rfl, fun _ => ⟨e, rfl⟩⟩
  | ok pw =>
  simp only [h4]
  rw [RunResult.bind_eq_of_ok _ (endpointsOf w)
    (rfl : (getChargebeeWebhookEndpoints w).result = .ok (endpointsOf w))]
  cases hf : (endpointsOf w).find?
      (fun endpoint => endpoint.name == "Hookdeck Webhook Endpoint") with
  | some ep =>
      simp only [hf]
      refine ⟨ApiCall.chargebeeUpdateEndpoint ep.id
          ⟨none, url, eventTypes, "v2", ⟨"basic_auth", un, pw⟩⟩,
        .inr ⟨_, _, rfl⟩, .inr ?_, fun hemp => ?_⟩
      · simp [getChargebeeWebhookEndpoints, updateChargebeeWebhookEndpoint]
      · simp [getChargebeeWebhookEndpoints, updateChargebeeWebhookEndpoint]
          at hemp
  | none =>
      simp only [hf]
      refine ⟨ApiCall.chargebeeCreateEndpoint
          ⟨some "Hookdeck Webhook Endpoint", url, eventTypes, "v2",
            ⟨"basic_auth", un, pw⟩⟩,
        .inl ⟨_, rfl⟩, .inr ?_, fun hemp => ?_⟩
      · simp [getChargebeeWebhookEndpoints, createChargebeeWebhookEndpoint]
      · simp [getChargebeeWebhookEndpoints, createChargebeeWebhookEndpoint]
          at hemp

/-- C9: in every run, the issued calls form, in this order, a prefix of the
fixed sequence Source upsert, customer Connection upsert, subscription
Connection upsert, payment Connection upsert, billing endpoint listing, and one
endpoint create or update: so no Connection upsert precedes the Source upsert
and no billing call precedes the last Connection upsert. Whenever the listing
is issued, exactly one create or update follows it, and a successful run issues
exactly the whole six-call sequence. -/
theorem run_call_order :
    ∀ args w, ∃ src c1 c2 c3 last,
      c1.name = "chargebee-customer" ∧
      c2.name = "chargebee-subscription" ∧
      c3.name = "chargebee-payment" ∧
      ((∃ b, last = ApiCall.chargebeeCreateEndpoint b) ∨
        ∃ i b, last = ApiCall.chargebeeUpdateEndpoint i b) ∧
      (∃ k, (main args w).calls =
        List.take k
          [ApiCall.sourceUpsert src, ApiCall.connectionUpsert c1,
            ApiCall.connectionUpsert c2, ApiCall.connectionUpsert c3,
            ApiCall.chargebeeListEndpoints, last]) ∧
      (ApiCall.chargebeeListEndpoints ∈ (main args w).calls →
        (main args w).calls =
          [ApiCall.sourceUpsert src, ApiCall.connectionUpsert c1,
            ApiCall.connectionUpsert c2, ApiCall.connectionUpsert c3,
            ApiCall.chargebeeListEndpoints, last]) ∧
      ((main args w).result = .ok () →
        (main args w).calls =
          [ApiCall.sourceUpsert src, ApiCall.connectionUpsert c1,
            ApiCall.connectionUpsert c2, ApiCall.connectionUpsert c3,
            ApiCall.chargebeeListEndpoints, last]) := by
  intro args w
  unfold main
  cases hp : parseMode args with
  | error e =>
      simp only [hp]
      exact ⟨⟨"", "", ⟨⟨"", ""⟩⟩⟩,
        ⟨"chargebee-customer", "", ⟨"", "", ⟨none, none⟩⟩, []⟩,
        ⟨"chargebee-subscription", "", ⟨"", "", ⟨none, none⟩⟩, []⟩,
        ⟨"chargebee-payment", "", ⟨"", "", ⟨none, none⟩⟩, []⟩,
        ApiCall.chargebeeCreateEndpoint ⟨none, "", [], "", ⟨"", "", ""⟩⟩,
        rfl, rfl, rfl, .inl ⟨_, rfl⟩, ⟨0, rfl⟩,
        fun hm => by simp [RunResult.throw] at hm,
        fun hr => by simp [RunResult.throw] at hr⟩
  | ok mode =>
      simp only [hp]
      unfold runScript
      obtain ⟨src, c1, c2, c3, hn1, hn2, hn3, hScases, hSfull⟩ :=
        setupHookdeckConnections_trace mode w
      cases hs : (setupHookdeckConnections mode w).result with
      | error e =>
          rw [RunResult.bind_eq_of_error _ e hs]
          refine ⟨src, c1, c2, c3,
            ApiCall.chargebeeCreateEndpoint ⟨none, "", [], "", ⟨"", "", ""⟩⟩,
            hn1, hn2, hn3, .inl ⟨_, rfl⟩, ?_, fun hm => ?_, fun hr => ?_⟩
          · rcases hScases with h | h | h | h | h
            · exact ⟨0, by simp [h]⟩
            · exact ⟨1, by simp [h]⟩
            · exact ⟨2, by simp [h]⟩
            · exact ⟨3, by simp [h]⟩
            · exact ⟨4, by simp [h]⟩
          · exfalso
            rcases hScases with h | h | h | h | h <;> simp [h] at hm
          · simp at hr
      | ok url =>
          rw [RunResult.bind_eq_of_ok _ url hs]
          have hS4 := hSfull url hs
          obtain ⟨last, hlshape, hKcases, hKempty⟩ :=
            setupChargebeeWebhook_trace mode w url
          refine ⟨src, c1, c2, c3, last, hn1, hn2, hn3, hlshape, ?_,
            fun hm => ?_, fun hr => ?_⟩
          · rcases hKcases with h | h
            · exact ⟨4, by simp [hS4, h]⟩
            · exact ⟨6, by simp [hS4, h]⟩
          · rcases hKcases with h | h
            · exfalso
              simp [hS4, h] at hm
            · simp [hS4, h]
          · rcases hKcases with h | h
            · exfalso
              obtain ⟨e2, he2⟩ := hKempty h
              exact absurd hr (by simp [he2])
            · simp [hS4, h]

/-- Witness for C9 at a concrete successful dev run, discharging the inner
hypotheses of the call-order theorem. -/
theorem run_call_order_witness :
    ∃ src c1 c2 c3 last,
      c1.name = "chargebee-customer" ∧
      c2.name = "chargebee-subscription" ∧
      c3.name = "chargebee-payment" ∧
      ((∃ b, last = ApiCall.chargebeeCreateEndpoint b) ∨
        ∃ i b, last = ApiCall.chargebeeUpdateEndpoint i b) ∧
      (main ["dev"] sampleWorld).calls =
        [ApiCall.sourceUpsert src, ApiCall.connectionUpsert c1,
          ApiCall.connectionUpsert c2, ApiCall.connectionUpsert c3,
          ApiCall.chargebeeListEndpoints, last] := by
  obtain ⟨src, c1, c2, c3, last, h1, h2, h3, h4, _, _, h7⟩ :=
    run_call_order ["dev"] sampleWorld
  exact ⟨src, c1, c2, c3, last, h1, h2, h3, h4, h7 rfl⟩

end ChargebeeDemo
